import Mathlib

/-!
Shallow embedding of the sqlite adapter of the nosql repository
(src/sqlite/sqlite.go) together with the parts of the shared `database`
package that the adapter uses (declared in the repository but not present
under src/, hence modelled from the spec where noted).

The sqlite store is modelled as an association list from bucket names to
tables, a table being an association list from keys to values; each SQL
statement the Go code builds (createTableQry, deleteTableQry, getQry,
delQry, insertUpdateQry) is embedded as the semantic effect of that
statement on this state.  Rollback and commit failures of the native SQL
transaction cannot be derived from the state, so they are injected through
an explicit `TxFaults` parameter; `noFaults` is the behaviour in which
Begin, Commit and Rollback all succeed.
-/

/-- Go byte slices; `bytes.Equal` identifies nil and empty, so both are `[]`. -/
abbrev Bytes := List Nat

/-- Embeds Go `bytes.Equal` (src/sqlite/sqlite.go line 58). -/
def bytesEqual (a b : Bytes) : Bool := decide (a = b)

/-- Rendering of a byte slice by a Go format verb `%s`, used in error messages. -/
def bytesToString (bs : Bytes) : String := String.mk (bs.map Char.ofNat)

/-- One bucket's rows: an association list from key to value (nkey PRIMARY KEY). -/
abbrev Table := List (Bytes × Bytes)

/-- Row lookup: `SELECT nvalue FROM bucket WHERE nkey = ?` on one table. -/
def tableGet : Table → Bytes → Option Bytes
  | [], _ => none
  | (k', v') :: rest, k => if k' = k then some v' else tableGet rest k

/-- Upsert on one table: `INSERT ... ON CONFLICT(nkey) DO UPDATE SET nvalue = ?`. -/
def tableSet : Table → Bytes → Bytes → Table
  | [], k, v => [(k, v)]
  | (k', v') :: rest, k, v => if k' = k then (k, v) :: rest else (k', v') :: tableSet rest k v

/-- Row deletion: `DELETE FROM bucket WHERE nkey = ?` on one table. -/
def tableDel (t : Table) (k : Bytes) : Table :=
  t.filter (fun p => decide (p.1 ≠ k))

/-- The whole sqlite database: an association list from bucket name to table. -/
abbrev Store := List (Bytes × Table)

/-- Looks up the table backing a bucket, `none` when the table does not exist. -/
def storeGetTable : Store → Bytes → Option Table
  | [], _ => none
  | (b', t') :: rest, b => if b' = b then some t' else storeGetTable rest b

/-- Replaces (or creates) the table backing a bucket. -/
def storeSetTable : Store → Bytes → Table → Store
  | [], b, t => [(b, t)]
  | (b', t') :: rest, b, t => if b' = b then (b, t) :: rest else (b', t') :: storeSetTable rest b t

/-- Modelled from the spec: the `database` package's Entry, the
(Bucket, Key, Value) triple returned by enumeration (spec section 3); the
`database` package is declared in the repository but not present under src/. -/
structure Entry where
  bucket : Bytes
  key : Bytes
  value : Bytes
deriving DecidableEq

/-- Go error values as the adapter builds and inspects them: the sentinels
`sql.ErrNoRows`, `database.ErrNotFound` and `database.ErrOpNotSupported`, the
sqlite engine error whose text is `no such table: X`, any other backend
failure carrying a message, and the wrappers of github.com/pkg/errors
(`errors.Wrapf` keeps a message plus a cause, `errors.WithStack` keeps only
the cause). -/
inductive GoErr
  | errNoRows
  | errNotFound
  | errOpNotSupported
  | noSuchTable (bucket : Bytes)
  | backend (msg : String)
  | wrapf (msg : String) (cause : GoErr)
  | withStack (cause : GoErr)
deriving DecidableEq

/-- The `Error()` string of an embedded Go error; pkg/errors renders a wrap
as message, colon, space, cause. -/
def errMsg : GoErr → String
  | GoErr.errNoRows => "sql: no rows in result set"
  | GoErr.errNotFound => "not found"
  | GoErr.errOpNotSupported => "operation not supported"
  | GoErr.noSuchTable b => "no such table" ++ ": " ++ bytesToString b
  | GoErr.backend m => m
  | GoErr.wrapf m e => m ++ ": " ++ errMsg e
  | GoErr.withStack e => errMsg e

/-- pkg/errors `errors.Cause`: unwraps Wrapf/WithStack down to the root error. -/
def cause : GoErr → GoErr
  | GoErr.wrapf _ e => cause e
  | GoErr.withStack e => cause e
  | e => e

/-- Whether an error value occurs anywhere in the wrap chain of another. -/
def chainContains : GoErr → GoErr → Bool
  | GoErr.wrapf m c, target => decide (GoErr.wrapf m c = target) || chainContains c target
  | GoErr.withStack c, target => decide (GoErr.withStack c = target) || chainContains c target
  | e, target => decide (e = target)

/-- Modelled from the spec: the `database` package's IsErrNotFound predicate
("is this a not-found error", spec section 6), declared in the repository's
`database` package which is not under src/; following pkg/errors it holds
when the root cause of the error is the ErrNotFound sentinel. -/
def IsErrNotFound (e : GoErr) : Bool := decide (cause e = GoErr.errNotFound)

/-- Modelled from the spec: the `database` package's IsErrOpNotSupported
predicate ("is this an unsupported-operation error", spec section 6),
declared in the repository's `database` package which is not under src/;
it holds when the root cause is the ErrOpNotSupported sentinel. -/
def IsErrOpNotSupported (e : GoErr) : Bool := decide (cause e = GoErr.errOpNotSupported)

/-- Embeds Go `strings.HasPrefix`, used by DeleteTable and List on the
backend error text. -/
def strHasPrefix (s p : String) : Bool := p.data.isPrefixOf s.data

/-- Effect of `QueryRow(getQry(bucket), key).Scan`: the sqlite engine fails
with a `no such table` error when the table is missing, with `sql.ErrNoRows`
when no row matches, and returns the stored value otherwise. -/
def queryRowGet (s : Store) (b k : Bytes) : Except GoErr Bytes :=
  match storeGetTable s b with
  | none => Except.error (GoErr.noSuchTable b)
  | some t =>
    match tableGet t k with
    | none => Except.error GoErr.errNoRows
    | some v => Except.ok v

/-- Effect of `Exec(insertUpdateQry(bucket), key, value, value)`. -/
def execInsertUpdate (s : Store) (b k v : Bytes) : Except GoErr Store :=
  match storeGetTable s b with
  | none => Except.error (GoErr.noSuchTable b)
  | some t => Except.ok (storeSetTable s b (tableSet t k v))

/-- Effect of `Exec(createTableQry(bucket))`: CREATE TABLE IF NOT EXISTS
never fails on an existing table. -/
def execCreateTable (s : Store) (b : Bytes) : Store :=
  match storeGetTable s b with
  | some _ => s
  | none => s ++ [(b, [])]

/-- Effect of `Exec(deleteTableQry(bucket))`: DROP TABLE fails with a
`no such table` error when the table is missing. -/
def execDropTable (s : Store) (b : Bytes) : Except GoErr Store :=
  match storeGetTable s b with
  | none => Except.error (GoErr.noSuchTable b)
  | some _ => Except.ok (s.filter (fun p => decide (p.1 ≠ b)))

/-- Effect of `Exec(delQry(bucket), key)`. -/
def execDelete (s : Store) (b k : Bytes) : Except GoErr Store :=
  match storeGetTable s b with
  | none => Except.error (GoErr.noSuchTable b)
  | some t => Except.ok (storeSetTable s b (tableDel t k))

/-- Effect of `Query("SELECT * FROM bucket")` followed by scanning all rows. -/
def queryAll (s : Store) (b : Bytes) : Except GoErr Table :=
  match storeGetTable s b with
  | none => Except.error (GoErr.noSuchTable b)
  | some t => Except.ok t

/-- Embeds `(db *DB) Get` (src/sqlite/sqlite.go lines 98 to 109). -/
def DB.Get (s : Store) (bucket key : Bytes) : Except GoErr Bytes :=
  match queryRowGet s bucket key with
  | Except.error GoErr.errNoRows =>
      Except.error (GoErr.wrapf (bytesToString bucket ++ "/" ++ bytesToString key ++ " not found") GoErr.errNotFound)
  | Except.error e =>
      Except.error (GoErr.wrapf ("failed to get " ++ bytesToString bucket ++ "/" ++ bytesToString key) e)
  | Except.ok v => Except.ok v

/-- Embeds `(db *DB) Set` (src/sqlite/sqlite.go lines 180 to 186): the
resulting store is returned in place of the in-place mutation of the
database. -/
def DB.Set (s : Store) (bucket key value : Bytes) : Except GoErr Store :=
  match execInsertUpdate s bucket key value with
  | Except.error e =>
      Except.error (GoErr.wrapf ("failed to set " ++ bytesToString bucket ++ "/" ++ bytesToString key) e)
  | Except.ok s' => Except.ok s'

/-- Embeds `(db *DB) DeleteTable` (src/sqlite/sqlite.go lines 85 to 95),
including the textual detection of the backend `no such table` error. -/
def DB.DeleteTable (s : Store) (bucket : Bytes) : Except GoErr Store :=
  match execDropTable s bucket with
  | Except.error e =>
      if strHasPrefix (errMsg e) "no such table"
      then Except.error (GoErr.wrapf (errMsg e) GoErr.errNotFound)
      else Except.error (GoErr.wrapf ("failed to delete table " ++ bytesToString bucket) e)
  | Except.ok s' => Except.ok s'

/-- Embeds `(db *DB) List` (src/sqlite/sqlite.go lines 112 to 142),
including the textual detection of the backend `no such table` error shared
with DeleteTable. -/
def DB.List (s : Store) (bucket : Bytes) : Except GoErr (List Entry) :=
  match queryAll s bucket with
  | Except.error e =>
      if strHasPrefix (errMsg e) "no such table"
      then Except.error (GoErr.wrapf (errMsg e) GoErr.errNotFound)
      else Except.error (GoErr.wrapf ("error querying table " ++ bytesToString bucket) e)
  | Except.ok t => Except.ok (t.map (fun p => Entry.mk bucket p.1 p.2))

/-- Failure injection for the native SQL transaction: what `Commit` and
`Rollback` return.  `Begin` is modelled as succeeding (its failure aborts
before any operation runs). -/
structure TxFaults where
  commitErr : Option GoErr := none
  rollbackErr : Option GoErr := none
deriving DecidableEq

/-- The behaviour in which Commit and Rollback always succeed. -/
def noFaults : TxFaults := {}

/-- Embeds the unexported helper `cmpAndSwap` after the row read: `current`
is the scanned value, left nil (empty) by `sql.ErrNoRows`
(src/sqlite/sqlite.go lines 58 to 65). -/
def cmpAndSwapCont (txSt : Store) (bucket key oldValue newValue current : Bytes) :
    Except GoErr (Store × Bytes × Bool) :=
  if !(bytesEqual current oldValue) then Except.ok (txSt, current, false)
  else
    match execInsertUpdate txSt bucket key newValue with
    | Except.error e =>
        Except.error (GoErr.wrapf ("failed to set " ++ bytesToString bucket ++ "/" ++ bytesToString key) e)
    | Except.ok st' => Except.ok (st', newValue, true)

/-- Embeds the unexported helper `cmpAndSwap` (src/sqlite/sqlite.go lines 51
to 66): it runs inside an open transaction whose pending state is `txSt` and
returns the new pending state with the value and swapped flag. -/
def cmpAndSwap (txSt : Store) (bucket key oldValue newValue : Bytes) :
    Except GoErr (Store × Bytes × Bool) :=
  match queryRowGet txSt bucket key with
  | Except.error GoErr.errNoRows => cmpAndSwapCont txSt bucket key oldValue newValue []
  | Except.error e => Except.error e
  | Except.ok current => cmpAndSwapCont txSt bucket key oldValue newValue current

/-- The outcome of the exported CmpAndSwap: the committed store after the
call, the returned value (nil as the empty slice), the swapped flag and the
returned error. -/
structure CasResult where
  store : Store
  val : Bytes
  swapped : Bool
  err : Option GoErr
deriving DecidableEq

/-- Embeds `(db *DB) CmpAndSwap` (src/sqlite/sqlite.go lines 25 to 49):
begins a native transaction, runs the helper, then commits on a swap and
rolls back otherwise; when the helper fails and the rollback also fails, the
returned error wraps the rollback error. -/
def DB.CmpAndSwap (f : TxFaults) (s : Store) (bucket key oldValue newValue : Bytes) : CasResult :=
  match cmpAndSwap s bucket key oldValue newValue with
  | Except.error e =>
    match f.rollbackErr with
    | some re =>
        CasResult.mk s [] false (some (GoErr.wrapf ("failed to execute CmpAndSwap transaction on " ++ bytesToString bucket ++ "/" ++ bytesToString key ++ " and failed to rollback transaction") re))
    | none => CasResult.mk s [] false (some e)
  | Except.ok (st', val, swapped) =>
    if swapped then
      match f.commitErr with
      | some ce => CasResult.mk s [] false (some (GoErr.wrapf "failed to commit MySQL transaction" ce))
      | none => CasResult.mk st' val true none
    else
      match f.rollbackErr with
      | some re =>
          CasResult.mk s [] false (some (GoErr.wrapf ("failed to rollback read-only CmpAndSwap transaction on " ++ bytesToString bucket ++ "/" ++ bytesToString key) re))
      | none => CasResult.mk s val false none

/-- Modelled from the spec: the `database` package's Operation command kinds
(spec section 3); the package is declared in the repository but not under
src/.  `other` stands for any command value outside the defined set, the
case the adapter's default branch handles. -/
inductive Cmd
  | createTable
  | deleteTable
  | get
  | set
  | delete
  | cmpAndSwap
  | cmpOrRollback
  | other
deriving DecidableEq

/-- Modelled from the spec: the `database` package's Operation record (spec
section 3): command, bucket, key, value, comparison value, and the two
output fields Result and Swapped mutated in place as the transaction
executes. -/
structure Operation where
  cmd : Cmd
  bucket : Bytes := []
  key : Bytes := []
  value : Bytes := []
  cmpValue : Bytes := []
  result : Bytes := []
  swapped : Bool := false
deriving DecidableEq

/-- How the native SQL transaction inside Update was finished when Update
returned: committed; rolled back by a successful Rollback call; Rollback was
called but itself failed; or Update returned without calling either Commit
or Rollback (the transaction is left open). -/
inductive TxEnd
  | committed
  | rolledBack
  | rollbackFailed
  | leaked
deriving DecidableEq

/-- What Update returns: the committed store visible after the call, the
operation list with its in-place mutations, the returned error and how the
native transaction was finished. -/
structure UpdateResult where
  store : Store
  ops : List Operation
  err : Option GoErr
  txEnd : TxEnd
deriving DecidableEq

/-- Embeds the `rollback` closure of Update (src/sqlite/sqlite.go lines 194
to 199): the original error is wrapped, with a message telling whether the
Rollback call itself failed; the rollback error value is not kept. -/
def updWrapRollback (f : TxFaults) (e : GoErr) : GoErr × TxEnd :=
  match f.rollbackErr with
  | some _ => (GoErr.wrapf "UPDATE failed, unable to rollback transaction" e, TxEnd.rollbackFailed)
  | none => (GoErr.wrapf "UPDATE failed" e, TxEnd.rolledBack)

/-- One step of Update's loop over `tx.Operations` (src/sqlite/sqlite.go
lines 200 to 246): either the transaction state advances and the operation
record carries its mutated Result and Swapped fields, or the loop returns
early with the wrapped error and the way the transaction was finished. -/
inductive StepOut
  | next (txSt : Store) (q : Operation)
  | fail (e : GoErr) (q : Operation) (te : TxEnd)
deriving DecidableEq

/-- The body of Update's switch on the operation command (src/sqlite/sqlite.go
lines 202 to 245).  Note that the DeleteTable failure branches and the
CmpOrRollback and default branches return without calling the rollback
closure. -/
def execOp (f : TxFaults) (txSt : Store) (q : Operation) : StepOut :=
  match q.cmd with
  | Cmd.createTable => StepOut.next (execCreateTable txSt q.bucket) q
  | Cmd.deleteTable =>
    match execDropTable txSt q.bucket with
    | Except.error e =>
        if strHasPrefix (errMsg e) "no such table"
        then StepOut.fail (GoErr.wrapf (errMsg e) GoErr.errNotFound) q TxEnd.leaked
        else StepOut.fail (GoErr.wrapf ("failed to delete table " ++ bytesToString q.bucket) e) q TxEnd.leaked
    | Except.ok st' => StepOut.next st' q
  | Cmd.get =>
    match queryRowGet txSt q.bucket q.key with
    | Except.error GoErr.errNoRows =>
        let p := updWrapRollback f (GoErr.wrapf (bytesToString q.bucket ++ "/" ++ bytesToString q.key ++ " not found") GoErr.errNotFound)
        StepOut.fail p.1 q p.2
    | Except.error e =>
        let p := updWrapRollback f (GoErr.wrapf ("failed to get " ++ bytesToString q.bucket ++ "/" ++ bytesToString q.key) e)
        StepOut.fail p.1 q p.2
    | Except.ok v => StepOut.next txSt { q with result := v }
  | Cmd.set =>
    match execInsertUpdate txSt q.bucket q.key q.value with
    | Except.error e =>
        let p := updWrapRollback f (GoErr.wrapf ("failed to set " ++ bytesToString q.bucket ++ "/" ++ bytesToString q.key) e)
        StepOut.fail p.1 q p.2
    | Except.ok st' => StepOut.next st' q
  | Cmd.delete =>
    match execDelete txSt q.bucket q.key with
    | Except.error e =>
        let p := updWrapRollback f (GoErr.wrapf ("failed to delete " ++ bytesToString q.bucket ++ "/" ++ bytesToString q.key) e)
        StepOut.fail p.1 q p.2
    | Except.ok st' => StepOut.next st' q
  | Cmd.cmpAndSwap =>
    match cmpAndSwap txSt q.bucket q.key q.cmpValue q.value with
    | Except.error e =>
        let p := updWrapRollback f (GoErr.wrapf ("failed to load-or-store " ++ bytesToString q.bucket ++ "/" ++ bytesToString q.key) e)
        StepOut.fail p.1 { q with result := [], swapped := false } p.2
    | Except.ok (st', v, sw) => StepOut.next st' { q with result := v, swapped := sw }
  | Cmd.cmpOrRollback => StepOut.fail GoErr.errOpNotSupported q TxEnd.leaked
  | Cmd.other => StepOut.fail GoErr.errOpNotSupported q TxEnd.leaked

/-- Update's loop and final commit: `s` is the committed store when Update
began, `txSt` the pending transaction state, `done` the operations already
executed (with their mutations).  On early return the committed store is
unchanged; when the loop ends Commit is attempted and its failure goes
through the rollback closure (src/sqlite/sqlite.go lines 200 to 251). -/
def updateLoop (f : TxFaults) (s : Store) : Store → List Operation → List Operation → UpdateResult
  | txSt, [], done =>
    match f.commitErr with
    | some ce =>
        let p := updWrapRollback f (GoErr.withStack ce)
        UpdateResult.mk s done (some p.1) p.2
    | none => UpdateResult.mk txSt done none TxEnd.committed
  | txSt, q :: rest, done =>
    match execOp f txSt q with
    | StepOut.next st' q' => updateLoop f s st' rest (done ++ [q'])
    | StepOut.fail e q' te => UpdateResult.mk s (done ++ q' :: rest) (some e) te

/-- The ordered operations of a `database.Tx`, the transaction container. -/
abbrev OpList := List Operation

/-- Embeds `(db *DB) Update` (src/sqlite/sqlite.go lines 189 to 252). -/
def DB.Update (f : TxFaults) (s : Store) (ops : OpList) : UpdateResult :=
  updateLoop f s s ops []

/-- Runs a list of operations from a pending transaction state, returning
the final pending state and the mutated operations when every step
succeeds, and `none` when some step returns early. -/
def runOps (f : TxFaults) : Store → List Operation → Option (Store × List Operation)
  | txSt, [] => some (txSt, [])
  | txSt, q :: rest =>
    match execOp f txSt q with
    | StepOut.next st' q' =>
      match runOps f st' rest with
      | some (st'', dn) => some (st'', q' :: dn)
      | none => none
    | StepOut.fail _ _ _ => none

/-- The current value of a key as CmpAndSwap compares it: the stored value,
or the empty value when the row is absent. -/
def currentVal (t : Table) (k : Bytes) : Bytes := (tableGet t k).getD []

/-- A small concrete bucket name used by the witnesses. -/
def usersBucket : Bytes := [117]

/-- A small concrete key used by the witnesses. -/
def aliceKey : Bytes := [97]

/-- A concrete table holding one row, used by the witnesses. -/
def demoTable : Table := [(aliceKey, [49])]

/-- A concrete store holding one bucket, used by the witnesses. -/
def demoStore : Store := [(usersBucket, demoTable)]

/-- A bucket name absent from `demoStore`, used by the witnesses. -/
def missingBucket : Bytes := [109]

/-- A concrete CmpAndSwap operation whose comparison value does not match,
used by the witnesses. -/
def c6Op : Operation :=
  { cmd := Cmd.cmpAndSwap, bucket := usersBucket, key := aliceKey, cmpValue := [55], value := [56] }

/-- A concrete Set operation that succeeds on `demoStore`, used by the
witnesses. -/
def c5SetOp : Operation :=
  { cmd := Cmd.set, bucket := usersBucket, key := [98], value := [57] }

/-- A concrete CmpOrRollback operation, used by the witnesses. -/
def corOp : Operation := { cmd := Cmd.cmpOrRollback }


theorem tableGet_tableSet (t : Table) (k v : Bytes) : tableGet (tableSet t k v) k = some v := by
  induction t with
  | nil => simp [tableSet, tableGet]
  | cons p rest ih =>
    rcases p with ⟨k1, v1⟩
    by_cases h : k1 = k
    · simp [tableSet, tableGet, h]
    · simp [tableSet, tableGet, h, ih]

theorem storeGetTable_storeSetTable (s : Store) (b : Bytes) (t : Table) :
    storeGetTable (storeSetTable s b t) b = some t := by
  induction s with
  | nil => simp [storeSetTable, storeGetTable]
  | cons p rest ih =>
    rcases p with ⟨b1, t1⟩
    by_cases h : b1 = b
    · simp [storeSetTable, storeGetTable, h]
    · simp [storeSetTable, storeGetTable, h, ih]

theorem errMsg_noSuchTable_hasPrefix (b : Bytes) :
    strHasPrefix (errMsg (GoErr.noSuchTable b)) "no such table" = true := by
  simp only [errMsg, strHasPrefix, String.data_append, List.isPrefixOf_iff_prefix]
  exact ⟨": ".data ++ (bytesToString b).data, by simp⟩

theorem updateLoop_append_of_runOps (f : TxFaults) (pre : List Operation) :
    ∀ (s txSt st' : Store) (dn done ops : List Operation),
      runOps f txSt pre = some (st', dn) →
      updateLoop f s txSt (pre ++ ops) done = updateLoop f s st' ops (done ++ dn) := by
  induction pre with
  | nil =>
    intro s txSt st' dn done ops h
    simp [runOps] at h
    obtain ⟨h1, h2⟩ := h
    subst h1
    subst h2
    simp
  | cons q rest ih =>
    intro s txSt st' dn done ops h
    cases hq : execOp f txSt q with
    | next st1 q' =>
      simp only [runOps, hq] at h
      cases hr : runOps f st1 rest with
      | none => rw [hr] at h; simp at h
      | some p =>
        rcases p with ⟨st2, dn2⟩
        rw [hr] at h
        simp at h
        obtain ⟨h1, h2⟩ := h
        subst h1
        subst h2
        simp only [List.cons_append, updateLoop, hq, List.append_eq]
        rw [ih s st1 st2 dn2 (done ++ [q']) ops hr]
        simp
    | fail e q' te =>
      simp only [runOps, hq] at h
      simp at h

/-- C2: for a key of an existing bucket whose current value (the stored
value, or the empty value when the row is absent) differs from the expected
old value, CmpAndSwap returns the current value, swapped false and a nil
error, and leaves the store unchanged. -/
theorem c2_cmpAndSwap_mismatch_is_negative_result (s : Store) (t : Table) (b k oldV newV : Bytes)
    (hb : storeGetTable s b = some t)
    (hne : bytesEqual (currentVal t k) oldV = false) :
    DB.CmpAndSwap noFaults s b k oldV newV = CasResult.mk s (currentVal t k) false none := by
  cases htk : tableGet t k with
  | none =>
    have hne2 : bytesEqual [] oldV = false := by simpa [currentVal, htk] using hne
    simp [DB.CmpAndSwap, cmpAndSwap, queryRowGet, hb, htk, cmpAndSwapCont, hne2, noFaults, currentVal]
  | some v =>
    have hne2 : bytesEqual v oldV = false := by simpa [currentVal, htk] using hne
    simp [DB.CmpAndSwap, cmpAndSwap, queryRowGet, hb, htk, cmpAndSwapCont, hne2, noFaults, currentVal]

/-- Witness for C2 at a concrete store: the stored value of the key is `[49]`
and the expected old value `[50]` does not match. -/
theorem c2_witness :
    DB.CmpAndSwap noFaults demoStore usersBucket aliceKey [50] [51] =
      CasResult.mk demoStore (currentVal demoTable aliceKey) false none :=
  c2_cmpAndSwap_mismatch_is_negative_result demoStore demoTable usersBucket aliceKey [50] [51]
    (by decide) (by decide)

/-- C3: for a key of an existing bucket whose current value equals the
expected old value, CmpAndSwap stores the new value, returns it with swapped
true and a nil error, and a subsequent Get on the same bucket and key
returns the new value. -/
theorem c3_cmpAndSwap_match_swaps_and_get_returns_new (s : Store) (t : Table) (b k v w : Bytes)
    (hb : storeGetTable s b = some t) (hv : tableGet t k = some v) :
    DB.CmpAndSwap noFaults s b k v w =
      CasResult.mk (storeSetTable s b (tableSet t k w)) w true none ∧
    DB.Get (DB.CmpAndSwap noFaults s b k v w).store b k = Except.ok w := by
  have hcas : DB.CmpAndSwap noFaults s b k v w =
      CasResult.mk (storeSetTable s b (tableSet t k w)) w true none := by
    simp [DB.CmpAndSwap, cmpAndSwap, queryRowGet, hb, hv, cmpAndSwapCont, bytesEqual,
      execInsertUpdate, noFaults]
  refine ⟨hcas, ?_⟩
  rw [hcas]
  simp [DB.Get, queryRowGet, storeGetTable_storeSetTable, tableGet_tableSet]

/-- Witness for C3 at a concrete store: the stored value `[49]` matches and
is swapped to `[50]`. -/
theorem c3_witness :
    DB.CmpAndSwap noFaults demoStore usersBucket aliceKey [49] [50] =
      CasResult.mk (storeSetTable demoStore usersBucket (tableSet demoTable aliceKey [50])) [50] true none ∧
    DB.Get (DB.CmpAndSwap noFaults demoStore usersBucket aliceKey [49] [50]).store usersBucket aliceKey =
      Except.ok [50] :=
  c3_cmpAndSwap_match_swaps_and_get_returns_new demoStore demoTable usersBucket aliceKey [49] [50]
    (by decide) (by decide)

/-- C7: on an existing bucket, Set succeeds as an unconditional upsert and a
subsequent Get on the same bucket and key returns exactly the value just
set, whether or not the key already had a prior value. -/
theorem c7_set_then_get_returns_value (s : Store) (t : Table) (b k v : Bytes)
    (hb : storeGetTable s b = some t) :
    DB.Set s b k v = Except.ok (storeSetTable s b (tableSet t k v)) ∧
    DB.Get (storeSetTable s b (tableSet t k v)) b k = Except.ok v := by
  constructor
  · simp [DB.Set, execInsertUpdate, hb]
  · simp [DB.Get, queryRowGet, storeGetTable_storeSetTable, tableGet_tableSet]

/-- Witness for C7 at a concrete store, overwriting the existing value of
the key. -/
theorem c7_witness :
    DB.Set demoStore usersBucket aliceKey [50] =
      Except.ok (storeSetTable demoStore usersBucket (tableSet demoTable aliceKey [50])) ∧
    DB.Get (storeSetTable demoStore usersBucket (tableSet demoTable aliceKey [50])) usersBucket aliceKey =
      Except.ok [50] :=
  c7_set_then_get_returns_value demoStore demoTable usersBucket aliceKey [50] (by decide)

/-- C8: Get on an existing bucket whose table does not contain the key fails
with an error satisfying the not-found predicate. -/
theorem c8_get_absent_key_not_found (s : Store) (t : Table) (b k : Bytes)
    (hb : storeGetTable s b = some t) (hk : tableGet t k = none) :
    ∃ e, DB.Get s b k = Except.error e ∧ IsErrNotFound e = true := by
  refine ⟨GoErr.wrapf (bytesToString b ++ "/" ++ bytesToString k ++ " not found") GoErr.errNotFound, ?_, ?_⟩
  · simp [DB.Get, queryRowGet, hb, hk]
  · simp [IsErrNotFound, cause]

/-- Witness for C8 at a concrete store with a key absent from the bucket. -/
theorem c8_witness :
    ∃ e, DB.Get demoStore usersBucket [98] = Except.error e ∧ IsErrNotFound e = true :=
  c8_get_absent_key_not_found demoStore demoTable usersBucket [98] (by decide) (by decide)

/-- C9: on a bucket whose table does not exist, both DeleteTable and List
detect the backend error text and fail with an error satisfying the shared
not-found predicate rather than a generic execution error. -/
theorem c9_deleteTable_and_list_missing_bucket_not_found (s : Store) (b : Bytes)
    (hb : storeGetTable s b = none) :
    (∃ e, DB.DeleteTable s b = Except.error e ∧ IsErrNotFound e = true) ∧
    (∃ e, DB.List s b = Except.error e ∧ IsErrNotFound e = true) := by
  constructor
  · refine ⟨GoErr.wrapf (errMsg (GoErr.noSuchTable b)) GoErr.errNotFound, ?_, ?_⟩
    · simp [DB.DeleteTable, execDropTable, hb, errMsg_noSuchTable_hasPrefix]
    · simp [IsErrNotFound, cause]
  · refine ⟨GoErr.wrapf (errMsg (GoErr.noSuchTable b)) GoErr.errNotFound, ?_, ?_⟩
    · simp [DB.List, queryAll, hb, errMsg_noSuchTable_hasPrefix]
    · simp [IsErrNotFound, cause]

/-- Witness for C9 at a concrete store, with a bucket that does not exist. -/
theorem c9_witness :
    (∃ e, DB.DeleteTable demoStore missingBucket = Except.error e ∧ IsErrNotFound e = true) ∧
    (∃ e, DB.List demoStore missingBucket = Except.error e ∧ IsErrNotFound e = true) :=
  c9_deleteTable_and_list_missing_bucket_not_found demoStore missingBucket (by decide)

/-- C10: on an existing bucket where no row exists for the key, CmpAndSwap
with an empty (nil) expected old value inserts the new value and returns it
with swapped true and a nil error, while with a non-empty expected old value
it returns nil, swapped false, a nil error and inserts nothing. -/
theorem c10_cmpAndSwap_absent_key (s : Store) (t : Table) (b k w o : Bytes)
    (hb : storeGetTable s b = some t) (hk : tableGet t k = none) (ho : o ≠ []) :
    DB.CmpAndSwap noFaults s b k [] w =
      CasResult.mk (storeSetTable s b (tableSet t k w)) w true none ∧
    DB.Get (DB.CmpAndSwap noFaults s b k [] w).store b k = Except.ok w ∧
    DB.CmpAndSwap noFaults s b k o w = CasResult.mk s [] false none := by
  have h1 : DB.CmpAndSwap noFaults s b k [] w =
      CasResult.mk (storeSetTable s b (tableSet t k w)) w true none := by
    simp [DB.CmpAndSwap, cmpAndSwap, queryRowGet, hb, hk, cmpAndSwapCont, bytesEqual,
      execInsertUpdate, noFaults]
  refine ⟨h1, ?_, ?_⟩
  · rw [h1]
    simp [DB.Get, queryRowGet, storeGetTable_storeSetTable, tableGet_tableSet]
  · have hne : bytesEqual ([] : Bytes) o = false := by
      simp only [bytesEqual, decide_eq_false_iff_not]
      exact Ne.symm ho
    simp [DB.CmpAndSwap, cmpAndSwap, queryRowGet, hb, hk, cmpAndSwapCont, hne, noFaults]

/-- Witness for C10 at a concrete store, with a key absent from the bucket,
an empty expected old value in the first part and `[55]` in the second. -/
theorem c10_witness :
    DB.CmpAndSwap noFaults demoStore usersBucket [98] [] [50] =
      CasResult.mk (storeSetTable demoStore usersBucket (tableSet demoTable [98] [50])) [50] true none ∧
    DB.Get (DB.CmpAndSwap noFaults demoStore usersBucket [98] [] [50]).store usersBucket [98] =
      Except.ok [50] ∧
    DB.CmpAndSwap noFaults demoStore usersBucket [98] [55] [50] = CasResult.mk demoStore [] false none :=
  c10_cmpAndSwap_absent_key demoStore demoTable usersBucket [98] [50] [55]
    (by decide) (by decide) (by decide)

/-- C6: inside Update's loop, a CmpAndSwap operation whose comparison value
does not match the current value of the key does not abort the transaction:
the operation record gets Result set to the current value and Swapped set to
false, the pending transaction state is unchanged, and the loop continues
with the remaining operations. -/
theorem c6_update_cas_mismatch_continues (f : TxFaults) (s txSt : Store) (t : Table)
    (q : Operation) (rest done : List Operation)
    (hc : q.cmd = Cmd.cmpAndSwap)
    (hb : storeGetTable txSt q.bucket = some t)
    (hne : bytesEqual (currentVal t q.key) q.cmpValue = false) :
    updateLoop f s txSt (q :: rest) done =
      updateLoop f s txSt rest (done ++ [{ q with result := currentVal t q.key, swapped := false }]) := by
  have hstep : execOp f txSt q =
      StepOut.next txSt { q with result := currentVal t q.key, swapped := false } := by
    cases htk : tableGet t q.key with
    | none =>
      have hne2 : bytesEqual [] q.cmpValue = false := by simpa [currentVal, htk] using hne
      simp [execOp, hc, cmpAndSwap, queryRowGet, hb, htk, cmpAndSwapCont, hne2, currentVal]
    | some v =>
      have hne2 : bytesEqual v q.cmpValue = false := by simpa [currentVal, htk] using hne
      simp [execOp, hc, cmpAndSwap, queryRowGet, hb, htk, cmpAndSwapCont, hne2, currentVal]
  simp [updateLoop, hstep]

/-- Witness for C6 at a concrete transaction state: the stored value `[49]`
differs from the comparison value `[55]`, and the loop continues with the
operation's Result and Swapped fields filled in. -/
theorem c6_witness :
    updateLoop noFaults demoStore demoStore [c6Op] [] =
      updateLoop noFaults demoStore demoStore []
        ([] ++ [{ c6Op with result := currentVal demoTable aliceKey, swapped := false }]) :=
  c6_update_cas_mismatch_continues noFaults demoStore demoStore demoTable c6Op [] [] rfl
    (by decide) (by decide)

/-- C5: when Update reaches an operation whose command is CmpOrRollback or
any command outside the defined set (every earlier operation having executed
without failure), it returns an error satisfying the unsupported-operation
predicate rather than silently skipping the operation. -/
theorem c5_update_unsupported_op_fails (s st' : Store) (pre rest dn : List Operation)
    (q : Operation)
    (hq : q.cmd = Cmd.cmpOrRollback ∨ q.cmd = Cmd.other)
    (hpre : runOps noFaults s pre = some (st', dn)) :
    ∃ e, (DB.Update noFaults s (pre ++ q :: rest)).err = some e ∧ IsErrOpNotSupported e = true := by
  refine ⟨GoErr.errOpNotSupported, ?_, by decide⟩
  have h := updateLoop_append_of_runOps noFaults pre s s st' dn [] (q :: rest) hpre
  simp only [DB.Update]
  rw [h]
  rcases hq with h2 | h2 <;> simp [updateLoop, execOp, h2]

/-- Witness for C5: a transaction whose first operation is a successful Set
and whose second operation is CmpOrRollback. -/
theorem c5_witness :
    ∃ e, (DB.Update noFaults demoStore ([c5SetOp] ++ corOp :: [])).err = some e ∧
      IsErrOpNotSupported e = true :=
  c5_update_unsupported_op_fails demoStore
    (storeSetTable demoStore usersBucket (tableSet demoTable [98] [57]))
    [c5SetOp] [] [c5SetOp] corOp (Or.inl rfl) (by rfl)

/-- C4 counterexample: a CmpAndSwap on a missing table fails with the
backend error, and when Rollback also fails the error CmpAndSwap returns
wraps only the rollback failure: the original operation error does not
occur anywhere in the returned error's wrap chain, so it is discarded
rather than carried distinguishably. -/
theorem c4_counterexample :
    (DB.CmpAndSwap noFaults [] [98] [107] [1] [2]).err = some (GoErr.noSuchTable [98]) ∧
    (DB.CmpAndSwap (TxFaults.mk none (some (GoErr.backend "rollback boom"))) [] [98] [107] [1] [2]).err =
      some (GoErr.wrapf "failed to execute CmpAndSwap transaction on b/k and failed to rollback transaction" (GoErr.backend "rollback boom")) ∧
    chainContains
      (GoErr.wrapf "failed to execute CmpAndSwap transaction on b/k and failed to rollback transaction" (GoErr.backend "rollback boom"))
      (GoErr.noSuchTable [98]) = false := by
  decide

/-- C4 as amended: when an operation fails and the rollback also fails,
CmpAndSwap returns an error wrapping only the rollback error (the original
operation error survives only as message text), whereas Update returns an
error wrapping only the original operation error under a distinct message
noting the rollback failure (the rollback error value survives only as
message text). -/
theorem c4_amended_rollback_failure_reporting (re : GoErr) (s1 s2 : Store) (t : Table)
    (b1 k1 o1 n1 b2 k2 : Bytes)
    (h1 : storeGetTable s1 b1 = none)
    (h2 : storeGetTable s2 b2 = some t) (h3 : tableGet t k2 = none) :
    (DB.CmpAndSwap (TxFaults.mk none (some re)) s1 b1 k1 o1 n1).err =
      some (GoErr.wrapf ("failed to execute CmpAndSwap transaction on " ++ bytesToString b1 ++ "/" ++ bytesToString k1 ++ " and failed to rollback transaction") re) ∧
    (DB.Update (TxFaults.mk none (some re)) s2 [Operation.mk Cmd.get b2 k2 [] [] [] false]).err =
      some (GoErr.wrapf "UPDATE failed, unable to rollback transaction"
        (GoErr.wrapf (bytesToString b2 ++ "/" ++ bytesToString k2 ++ " not found") GoErr.errNotFound)) ∧
    (DB.Update (TxFaults.mk none (some re)) s2 [Operation.mk Cmd.get b2 k2 [] [] [] false]).txEnd =
      TxEnd.rollbackFailed := by
  refine ⟨?_, ?_, ?_⟩
  · simp [DB.CmpAndSwap, cmpAndSwap, queryRowGet, h1]
  · simp [DB.Update, updateLoop, execOp, queryRowGet, h2, h3, updWrapRollback]
  · simp [DB.Update, updateLoop, execOp, queryRowGet, h2, h3, updWrapRollback]

/-- Witness for the amended C4 at concrete stores: the CmpAndSwap operation
fails on a missing table and the Update operation fails on a missing key,
while Rollback fails with a backend error. -/
theorem c4_witness :
    (DB.CmpAndSwap (TxFaults.mk none (some (GoErr.backend "rb"))) [] [98] [107] [1] [2]).err =
      some (GoErr.wrapf ("failed to execute CmpAndSwap transaction on " ++ bytesToString [98] ++ "/" ++ bytesToString [107] ++ " and failed to rollback transaction") (GoErr.backend "rb")) ∧
    (DB.Update (TxFaults.mk none (some (GoErr.backend "rb"))) demoStore
      [Operation.mk Cmd.get usersBucket [98] [] [] [] false]).err =
      some (GoErr.wrapf "UPDATE failed, unable to rollback transaction"
        (GoErr.wrapf (bytesToString usersBucket ++ "/" ++ bytesToString [98] ++ " not found") GoErr.errNotFound)) ∧
    (DB.Update (TxFaults.mk none (some (GoErr.backend "rb"))) demoStore
      [Operation.mk Cmd.get usersBucket [98] [] [] [] false]).txEnd = TxEnd.rollbackFailed :=
  c4_amended_rollback_failure_reporting (GoErr.backend "rb") [] demoStore demoTable
    [98] [107] [1] [2] usersBucket [98] (by decide) (by decide) (by decide)

/-- C1: the claim fails on the code.  Update on a transaction whose
DeleteTable operation hits a missing table returns the not-found error with
the native transaction neither committed nor rolled back (leaked), and the
same happens for a CmpOrRollback or unknown operation, even after an
earlier successful operation; the committed store is unchanged only
because nothing was committed, not because a rollback was issued. -/
theorem c1_update_failure_paths_skip_rollback :
    (DB.Update noFaults demoStore [Operation.mk Cmd.deleteTable missingBucket [] [] [] [] false]).err =
      some (GoErr.wrapf (errMsg (GoErr.noSuchTable missingBucket)) GoErr.errNotFound) ∧
    (DB.Update noFaults demoStore [Operation.mk Cmd.deleteTable missingBucket [] [] [] [] false]).txEnd =
      TxEnd.leaked ∧
    (DB.Update noFaults demoStore [Operation.mk Cmd.deleteTable missingBucket [] [] [] [] false]).store =
      demoStore ∧
    (DB.Update noFaults demoStore [corOp]).err = some GoErr.errOpNotSupported ∧
    (DB.Update noFaults demoStore [corOp]).txEnd = TxEnd.leaked ∧
    (DB.Update noFaults demoStore [c5SetOp, corOp]).txEnd = TxEnd.leaked ∧
    (DB.Update noFaults demoStore [c5SetOp, corOp]).store = demoStore := by
  decide
